import Mathlib

/-!
Verification development for the AlphaEarth embedding downloader
(ae_downloader_light.py).  The Python source is shallowly embedded below:
pure helpers become Lean functions, the remote services (Earth Engine
projection and catalog, the S3 raster store) become explicit parameters,
exceptions become an Except monad, and the local filesystem becomes an
explicit World value threaded through the pipeline.
-/

namespace AE

/-! ## Python string primitives used by the source -/

/-- Model of the test "does the string start with a slash" used by
os.path.join on POSIX. -/
def pyStartsSlash (s : String) : Bool :=
  s.data.head? = some '/'

/-- Model of the test "does the string end with a slash" used by
os.path.join on POSIX. -/
def pyEndsSlash (s : String) : Bool :=
  s.data.getLast? = some '/'

/-- Model of a single accumulation step of os.path.join on POSIX:
an absolute component restarts the path, otherwise a separator is
inserted unless the accumulated path is empty or already ends in one. -/
def pyJoin (a b : String) : String :=
  if pyStartsSlash b then b
  else if a.data = [] ∨ pyEndsSlash a then a ++ b
  else a ++ "/" ++ b

/-- Model of os.path.join folded over a list of components. -/
def pyJoinList (a : String) (rest : List String) : String :=
  rest.foldl pyJoin a

/-- Worker for the model of Python str.replace.  The counter argument
skips over characters already consumed by a pattern match; at counter
zero the pattern is tried at the current position and on a match the
replacement is emitted and the rest of the match is skipped.  This is
the left-to-right, non-overlapping semantics of str.replace. -/
def replSkip (pat rep : List Char) : Nat → List Char → List Char
  | _, [] => []
  | 0, c :: rest =>
    if pat.isPrefixOf (c :: rest) then rep ++ replSkip pat rep (pat.length - 1) rest
    else c :: replSkip pat rep 0 rest
  | k + 1, _ :: rest => replSkip pat rep k rest

/-- Model of Python str.replace for a non-empty pattern, which is the
only way the source uses it. -/
def pyReplace (s pat rep : String) : String :=
  if pat.data.isEmpty then s else ⟨replSkip pat.data rep.data 0 s.data⟩

/-- Model of Python str.split on the slash character: splitting an empty
string yields one empty field, and every slash starts a new field. -/
def splitSlash : List Char → List (List Char)
  | [] => [[]]
  | c :: rest =>
    if c = '/' then [] :: splitSlash rest
    else
      match splitSlash rest with
      | [] => [[c]]
      | h :: t => (c :: h) :: t

/-- Model of the Python idiom s.split("/")[-1] taking the last field. -/
def lastSlashComponent (s : String) : String :=
  ⟨(splitSlash s.data).getLastD []⟩

/-! ## Data model -/

/-- Spatial bounds of a raster file as exposed by rasterio (src.bounds). -/
structure Bounds where
  left : ℚ
  right : ℚ
  bottom : ℚ
  top : ℚ
deriving DecidableEq

/-- Affine geotransform coefficients (rasterio Affine). -/
structure Affine where
  a : ℚ
  b : ℚ
  c : ℚ
  d : ℚ
  e : ℚ
  f : ℚ
deriving DecidableEq, Inhabited

/-- The metadata profile of a raster dataset (the keys the source reads
or updates). -/
structure Profile where
  driver : String
  dtype : String
  width : Nat
  height : Nat
  count : Nat
  crs : String
  transform : Affine
deriving DecidableEq, Inhabited

/-- A rasterio pixel window: column and row offsets plus width and height. -/
structure Window where
  col_off : ℤ
  row_off : ℤ
  width : Nat
  height : Nat
deriving DecidableEq

/-- Raw quantized pixel data: bands of rows of integer samples. -/
abbrev TileData := List (List (List ℤ))

/-- A float32 cell value: either the IEEE NaN marker or an exact value. -/
inductive FloatVal where
  | nan : FloatVal
  | val (q : ℚ) : FloatVal
deriving DecidableEq

/-- Dequantized pixel data with NaN markers. -/
abbrev PhysTile := List (List (List FloatVal))

/-- Data handed to the tile writer: either raw or dequantized pixels. -/
inductive OutData where
  | raw (t : TileData) : OutData
  | phys (p : PhysTile) : OutData
deriving DecidableEq

instance : Inhabited OutData := ⟨.raw []⟩

/-- A remote raster file as visible through rasterio: bounds, pixel
dimensions, the geotransform sending projected coordinates to a
(row, column) pair, windowed reads, window geotransform derivation,
and the metadata profile. -/
structure RasterFile where
  bounds : Bounds
  width : Nat
  height : Nat
  index : ℚ → ℚ → ℤ × ℤ
  read : Window → TileData
  windowTransform : Window → Affine
  profile : Profile

/-- One image of the external Earth Engine catalog, reduced to the facts
the source consults: its asset id, its date, and whether its footprint
contains the query point. -/
structure GeeImage where
  id : String
  year : Nat
  month : Nat
  day : Nat
  coversPoint : Bool
deriving DecidableEq

/-- Failure conditions of the modelled code paths.  The first four arise
from the Python code (network failures of the two Earth Engine calls,
rasterio open failures, and the TypeError or AttributeError raised when
None flows into string or path operations).  The last one is the
distinct NoMatchingTile error kind named by the design document; no code
path produces it. -/
inductive PyErr where
  | projection : PyErr
  | catalog : PyErr
  | remoteAccess : PyErr
  | noneTypeError : PyErr
  | noMatchingTile : PyErr
deriving DecidableEq

/-- The dictionary returned by the UTM zone resolver. -/
structure UtmData where
  zone : ℤ
  hemisphere : String
  epsg : String
  easting : ℚ
  northing : ℚ
deriving DecidableEq

/-- The configuration fields of the Downloader constructor. -/
structure Downloader where
  output_path : String
  tile_size : Nat
  dequantize : Bool

/-- The external world the downloader talks to: the Earth Engine
projection transform, the Earth Engine image catalog, and the remote
raster store mapping a path to the file served there (absence meaning
the open fails). -/
structure Env where
  projTransform : ℚ → ℚ → ℤ → Except PyErr (ℚ × ℚ)
  catalogImages : Except PyErr (List GeeImage)
  store : String → Option RasterFile

/-- One raster file persisted by the tile writer. -/
structure WrittenFile where
  path : String
  data : OutData
  profile : Profile
deriving DecidableEq, Inhabited

/-- The local filesystem state: the list of written output files. -/
structure World where
  files : List WrittenFile
deriving DecidableEq

/-! ## Constants fixed in the Downloader constructor -/

/-- The fixed S3 base location of the archive. -/
def bucket : String :=
  "s3://us-west-2.opendata.source.coop/tge-labs/aef/v1/annual/"

/-- The four fixed shard-grid quadrant suffixes, in source order. -/
def tge_labs_aef_file_endings : List String :=
  ["-0000000000-0000000000.tiff",
   "-0000000000-0000008192.tiff",
   "-0000008192-0000000000.tiff",
   "-0000008192-0000008192.tiff"]

/-! ## Coordinate resolver (_get_utm_zone) -/

/-- The UTM zone number computed from the longitude. -/
def zoneOf (lon : ℚ) : ℤ :=
  ⌊(lon + 180) / 6⌋ + 1

/-- The hemisphere letter chosen from the latitude sign. -/
def hemiOf (lat : ℚ) : String :=
  if lat ≥ 0 then "N" else "S"

/-- The numeric EPSG code chosen from hemisphere and zone. -/
def epsgOf (lat lon : ℚ) : ℤ :=
  if lat ≥ 0 then 32600 + zoneOf lon else 32700 + zoneOf lon

/-- Model of _get_utm_zone: computes zone, hemisphere and EPSG code,
then asks the external projection service for the projected
coordinates; a service failure propagates. -/
def _get_utm_zone (env : Env) (lat lon : ℚ) : Except PyErr UtmData :=
  match env.projTransform lon lat (epsgOf lat lon) with
  | .error e => .error e
  | .ok (e_, n_) =>
    .ok ⟨zoneOf lon, hemiOf lat, "EPSG:" ++ toString (epsgOf lat lon), e_, n_⟩

/-! ## Asset locator (_get_asset_id) -/

/-- Lexicographic order on (year, month, day) dates. -/
def dateLE (a b : Nat × Nat × Nat) : Bool :=
  decide (a.1 < b.1 ∨ (a.1 = b.1 ∧
    (a.2.1 < b.2.1 ∨ (a.2.1 = b.2.1 ∧ a.2.2 ≤ b.2.2))))

/-- Modelled from the spec: the external Earth Engine catalog filter
semantics are not part of the repository, so the date restriction is
modelled per the design document as keeping exactly the images whose
date lies between the start date and the end date, both inclusive. -/
def filterDate (images : List GeeImage) (startD endD : Nat × Nat × Nat) :
    List GeeImage :=
  images.filter fun img =>
    dateLE startD (img.year, img.month, img.day) &&
    dateLE (img.year, img.month, img.day) endD

/-- Model of the filterBounds step: keep images whose footprint contains
the query point. -/
def filterBounds (images : List GeeImage) : List GeeImage :=
  images.filter (·.coversPoint)

/-- The catalog subset consulted for a given year, in catalog order. -/
def yearCandidates (images : List GeeImage) (year : Nat) : List GeeImage :=
  filterBounds (filterDate images (year, 1, 1) (year, 12, 31))

/-- Model of _get_asset_id: filter the catalog to the calendar year and
the point, take the first image of the catalog ordering, and return the
last slash-separated component of its id; an empty result yields none
rather than an error. -/
def _get_asset_id (env : Env) (_lat _lon : ℚ) (year : Nat) :
    Except PyErr (Option String) :=
  match env.catalogImages with
  | .error e => .error e
  | .ok images =>
    match (yearCandidates images year).head? with
    | none => .ok none
    | some img => .ok (some (lastSlashComponent img.id))

/-! ## Candidate file builder (_construct_candidate_file_names) -/

/-- Model of _construct_candidate_file_names.  When the asset lookup
returned None, the Python expression file_id + suffix raises a
TypeError, modelled by the error branch. -/
def _construct_candidate_file_names (year utm_zone : String)
    (file_id : Option String) : Except PyErr (List String) :=
  match file_id with
  | none => .error .noneTypeError
  | some fid =>
    .ok (tge_labs_aef_file_endings.map fun suffix =>
      pyJoinList bucket [year, utm_zone, fid ++ suffix])

/-! ## Tile finder (_check_file_for_point and the download loop) -/

/-- The side-file path opened by the bounds probe: the dotted pattern
".tiff" replaced by ".vrt" everywhere. -/
def vrtPathProbe (filepath : String) : String :=
  pyReplace filepath ".tiff" ".vrt"

/-- Model of _check_file_for_point: open the side-file derived from the
candidate path (an open failure is an error) and test the inclusive
bounds containment of the point. -/
def _check_file_for_point (store : String → Option RasterFile)
    (utm_x utm_y : ℚ) (filepath : String) : Except PyErr Bool :=
  match store (vrtPathProbe filepath) with
  | none => .error .remoteAccess
  | some src =>
    .ok (decide (src.bounds.left ≤ utm_x ∧ utm_x ≤ src.bounds.right ∧
      src.bounds.bottom ≤ utm_y ∧ utm_y ≤ src.bounds.top))

/-- Model of the candidate loop in download: probe the candidates in
list order, stop at the first whose bounds contain the point, propagate
probe errors, and fall through to none when no candidate matches. -/
def findTargetFile (store : String → Option RasterFile) (x y : ℚ) :
    List String → Except PyErr (Option String)
  | [] => .ok none
  | f :: rest =>
    match _check_file_for_point store x y f with
    | .error e => .error e
    | .ok true => .ok (some f)
    | .ok false => findTargetFile store x y rest

/-! ## Window extractor (_read_file) -/

/-- The path opened by the windowed read: every occurrence of the
undotted substring "tiff" replaced by "vrt". -/
def vrtPathRead (filename : String) : String :=
  pyReplace filename "tiff" "vrt"

/-- The computed window placement: final offsets and the centering flag. -/
structure WindowCalc where
  col_off : ℤ
  row_off : ℤ
  centered : Bool
deriving DecidableEq

/-- The offset and centering computation of _read_file: naive offsets
from the pixel position, the centering test against both axis bounds,
then the clamp of both offsets into the valid range. -/
def computeWindow (tile_size width height : Nat) (row col : ℤ) : WindowCalc :=
  let half_size : ℤ := (tile_size / 2 : Nat)
  let col_off := col - half_size
  let row_off := row - half_size
  let centered := true
  let centered :=
    if col_off < 0 ∨ (width : ℤ) - (tile_size : ℤ) < col_off then false
    else centered
  let centered :=
    if row_off < 0 ∨ (height : ℤ) - (tile_size : ℤ) < row_off then false
    else centered
  let col_off := max 0 (min col_off ((width : ℤ) - (tile_size : ℤ)))
  let row_off := max 0 (min row_off ((height : ℤ) - (tile_size : ℤ)))
  ⟨col_off, row_off, centered⟩

/-- The result triple of _read_file. -/
structure ReadResult where
  data : TileData
  profile : Profile
  centered : Bool

/-- Model of _read_file.  A missing target (None from the candidate
loop) raises before any remote access, because the Python code calls
replace on None; a failed open of the side-file is a remote access
error; otherwise the window around the point is computed, read, and the
profile rewritten for the extracted subset. -/
def _read_file (d : Downloader) (store : String → Option RasterFile)
    (utm_x utm_y : ℚ) : Option String → Except PyErr ReadResult
  | none => .error .noneTypeError
  | some fn =>
    match store (vrtPathRead fn) with
    | none => .error .remoteAccess
    | some src =>
      let rc := src.index utm_x utm_y
      let wc := computeWindow d.tile_size src.width src.height rc.1 rc.2
      let window : Window := ⟨wc.col_off, wc.row_off, d.tile_size, d.tile_size⟩
      let data := src.read window
      let profile :=
        { src.profile with
          height := d.tile_size
          width := d.tile_size
          transform := src.windowTransform window
          driver := "GTiff" }
      .ok ⟨data, profile, wc.centered⟩

/-! ## Value transformer (_dequantize) -/

/-- Model of numpy sign on an exact value. -/
def qsign (q : ℚ) : ℚ :=
  if 0 < q then 1 else if q < 0 then -1 else 0

/-- The per-element dequantization: the NoData sentinel becomes NaN
(overriding the formula), every other value is mapped through the
documented formula. -/
def deqElem (v : ℤ) : FloatVal :=
  if v = -128 then .nan else .val ((((v : ℚ)) / 127.5) ^ 2 * qsign (v : ℚ))

/-- Model of _dequantize applied to a whole tile, element-wise. -/
def _dequantize (data : TileData) : PhysTile :=
  data.map (fun band => band.map (fun r0 => r0.map deqElem))

/-- The optional dequantization step of download: when the flag is set
the data is transformed and the declared pixel type becomes float32. -/
def maybeDequantize (flag : Bool) (data : TileData) (profile : Profile) :
    OutData × Profile :=
  if flag then (.phys (_dequantize data), { profile with dtype := "float32" })
  else (.raw data, profile)

/-! ## Tile writer (_save_tile) -/

/-- Model of _save_tile: the output file named by location id and
centering flag is appended to the written files of the world. -/
def _save_tile (d : Downloader) (w : World) (data : OutData)
    (profile : Profile) (year : Nat) (location_id : String) (msg : Bool) :
    World :=
  let output_dir := pyJoin d.output_path (toString year)
  let output_file :=
    output_dir ++ "/" ++ location_id ++ "_centered_" ++
      (if msg then "True" else "False") ++ ".tiff"
  ⟨w.files ++ [⟨output_file, data, profile⟩]⟩

/-! ## The download pipeline -/

/-- Model of download: the sequential pipeline of the source, threading
the world through and stopping at the first failing step. -/
def download (d : Downloader) (env : Env) (w : World) (lat lon : ℚ)
    (year : Nat) (location_id : String) : World × Except PyErr Unit :=
  match _get_utm_zone env lat lon with
  | .error e => (w, .error e)
  | .ok utm =>
    match _get_asset_id env lat lon year with
    | .error e => (w, .error e)
    | .ok gee_asset_id =>
      match _construct_candidate_file_names (toString year)
          (toString utm.zone ++ utm.hemisphere) gee_asset_id with
      | .error e => (w, .error e)
      | .ok filenames =>
        match findTargetFile env.store utm.easting utm.northing filenames with
        | .error e => (w, .error e)
        | .ok target_file =>
          match _read_file d env.store utm.easting utm.northing target_file with
          | .error e => (w, .error e)
          | .ok r =>
            let dp := maybeDequantize d.dequantize r.data r.profile
            (_save_tile d w dp.1 dp.2 year location_id r.centered, .ok ())

/-! ## Claim C2: the centering flag -/

/-- Claim C2: with naive offsets computed as the pixel position minus
half the tile size (integer division) before any clamping, the window
is flagged centered exactly when both naive offsets lie between zero
and the file dimension minus the tile size, on both axes. -/
theorem window_centered_flag_iff (N width height : Nat) (row col : ℤ) :
    ((computeWindow N width height row col).centered = true) ↔
      (0 ≤ col - (N : ℤ) / 2 ∧ col - (N : ℤ) / 2 ≤ (width : ℤ) - N ∧
       0 ≤ row - (N : ℤ) / 2 ∧ row - (N : ℤ) / 2 ≤ (height : ℤ) - N) := by
  have hc : ((N / 2 : Nat) : ℤ) = (N : ℤ) / 2 := Int.ofNat_ediv N 2
  unfold computeWindow
  dsimp only
  split_ifs with h1 h2 <;> simp_all <;> omega

/-! ## Claim C3: the clamping step -/

/-- Claim C3: when the tile size is at most both file dimensions, the
clamped offsets lie in the valid range on both axes, the requested
window is exactly tile_size by tile_size (visible in the rewritten
profile of the read result), and the extraction succeeds rather than
failing whenever the side-file opens. -/
theorem window_clamp_in_range (d : Downloader) (width height : Nat)
    (row col : ℤ) (hw : d.tile_size ≤ width) (hh : d.tile_size ≤ height) :
    (0 ≤ (computeWindow d.tile_size width height row col).col_off ∧
     (computeWindow d.tile_size width height row col).col_off ≤
       (width : ℤ) - d.tile_size ∧
     0 ≤ (computeWindow d.tile_size width height row col).row_off ∧
     (computeWindow d.tile_size width height row col).row_off ≤
       (height : ℤ) - d.tile_size) ∧
    (∀ store x y fn src, store (vrtPathRead fn) = some src →
      ∃ r, _read_file d store x y (some fn) = .ok r ∧
        r.profile.width = d.tile_size ∧ r.profile.height = d.tile_size) := by
  constructor
  · have hw' : (d.tile_size : ℤ) ≤ (width : ℤ) := by exact_mod_cast hw
    have hh' : (d.tile_size : ℤ) ≤ (height : ℤ) := by exact_mod_cast hh
    unfold computeWindow
    dsimp only
    refine ⟨by omega, by omega, by omega, by omega⟩
  · intro store x y fn src hsrc
    unfold _read_file
    dsimp only
    rw [hsrc]
    exact ⟨_, rfl, rfl, rfl⟩

/-- Witness for claim C3 at a concrete downloader, file geometry and
store. -/
theorem window_clamp_in_range_witness :
    (0 ≤ (computeWindow 2 5 5 0 0).col_off ∧
     (computeWindow 2 5 5 0 0).col_off ≤ (5 : ℤ) - 2 ∧
     0 ≤ (computeWindow 2 5 5 0 0).row_off ∧
     (computeWindow 2 5 5 0 0).row_off ≤ (5 : ℤ) - 2) ∧
    (∃ r, _read_file ⟨"out", 2, false⟩
        (fun _ => some ⟨⟨0, 100, 0, 100⟩, 5, 5, fun _ _ => (0, 0),
          fun _ => [[[1]]], fun _ => default, default⟩) 3 3 (some "f.tiff") =
        .ok r ∧ r.profile.width = 2 ∧ r.profile.height = 2) := by
  have h := window_clamp_in_range ⟨"out", 2, false⟩ 5 5 0 0
    (by decide) (by decide)
  exact ⟨h.1, h.2 (fun _ => some ⟨⟨0, 100, 0, 100⟩, 5, 5, fun _ _ => (0, 0),
    fun _ => [[[1]]], fun _ => default, default⟩) 3 3 "f.tiff" _ rfl⟩

/-! ## Claim C5: the coordinate resolver derivation -/

/-- Claim C5: the zone is the floor formula, lies in the range one to
sixty for longitudes in the valid interval, and is monotone
non-decreasing; the hemisphere letter is north exactly for nonnegative
latitude; the EPSG code is 32600 plus zone in the north and 32700 plus
zone in the south, and the two code ranges are disjoint; and the
resolver returns exactly these derived values. -/
theorem utm_zone_resolver_spec (lat lon lon2 : ℚ) :
    (zoneOf lon = ⌊(lon + 180) / 6⌋ + 1) ∧
    (-180 ≤ lon → lon < 180 → 1 ≤ zoneOf lon ∧ zoneOf lon ≤ 60) ∧
    (lon ≤ lon2 → zoneOf lon ≤ zoneOf lon2) ∧
    ((hemiOf lat = "N" ↔ 0 ≤ lat) ∧ (hemiOf lat = "S" ↔ lat < 0)) ∧
    (0 ≤ lat → epsgOf lat lon = 32600 + zoneOf lon) ∧
    (lat < 0 → epsgOf lat lon = 32700 + zoneOf lon) ∧
    (∀ lat2, -180 ≤ lon → lon < 180 → -180 ≤ lon2 → lon2 < 180 →
      0 ≤ lat → lat2 < 0 → epsgOf lat lon ≠ epsgOf lat2 lon2) ∧
    (∀ env x y, env.projTransform lon lat (epsgOf lat lon) = .ok (x, y) →
      _get_utm_zone env lat lon =
        .ok ⟨zoneOf lon, hemiOf lat, "EPSG:" ++ toString (epsgOf lat lon),
          x, y⟩) := by
  have hbound : ∀ l : ℚ, -180 ≤ l → l < 180 → 1 ≤ zoneOf l ∧ zoneOf l ≤ 60 := by
    intro l h1 h2
    unfold zoneOf
    constructor
    · have : (0 : ℤ) ≤ ⌊(l + 180) / 6⌋ :=
        Int.floor_nonneg.mpr (div_nonneg (by linarith) (by norm_num))
      omega
    · have : ⌊(l + 180) / 6⌋ < 60 := by
        apply Int.floor_lt.mpr
        rw [div_lt_iff₀ (by norm_num : (0 : ℚ) < 6)]
        push_cast
        linarith
      omega
  refine ⟨rfl, hbound lon, ?_, ⟨?_, ?_⟩, ?_, ?_, ?_, ?_⟩
  · intro hle
    unfold zoneOf
    have : ⌊(lon + 180) / 6⌋ ≤ ⌊(lon2 + 180) / 6⌋ := by
      apply Int.floor_le_floor
      gcongr
    omega
  · unfold hemiOf
    split_ifs with h
    · simpa using h
    · simp only [ge_iff_le, not_le] at h
      constructor
      · intro hcon
        exact absurd hcon (by decide)
      · intro h0
        linarith
  · unfold hemiOf
    split_ifs with h
    · constructor
      · intro hcon
        exact absurd hcon (by decide)
      · intro h0
        exact absurd h (not_le.mpr h0)
    · simpa using not_le.mp h
  · intro h0
    unfold epsgOf
    rw [if_pos h0]
  · intro hneg
    unfold epsgOf
    rw [if_neg (not_le.mpr hneg)]
  · intro lat2 hl1 hl2 hm1 hm2 h0 hneg
    have b1 := hbound lon hl1 hl2
    have b2 := hbound lon2 hm1 hm2
    unfold epsgOf
    rw [if_pos h0, if_neg (not_le.mpr hneg)]
    omega
  · intro env x y hp
    unfold _get_utm_zone
    rw [hp]

/-- Witness for claim C5 at concrete latitudes and longitudes,
discharging every range hypothesis at explicit values. -/
theorem utm_zone_resolver_spec_witness :
    (1 ≤ zoneOf (-10) ∧ zoneOf (-10) ≤ 60) ∧
    zoneOf (-10) ≤ zoneOf 0 ∧
    hemiOf (-1) = "S" ∧
    epsgOf (-1) (-10) = 32700 + zoneOf (-10) ∧
    epsgOf 3 (-10) ≠ epsgOf (-1) 0 := by
  have h1 := utm_zone_resolver_spec (-1) (-10) 0
  have h2 := utm_zone_resolver_spec 3 (-10) 0
  exact ⟨h1.2.1 (by decide) (by decide),
    h1.2.2.1 (by decide),
    (h1.2.2.2.1.2).mpr (by decide),
    h1.2.2.2.2.2.1 (by decide),
    h2.2.2.2.2.2.2.1 (-1) (by decide) (by decide) (by decide) (by decide)
      (by decide) (by decide)⟩

/-! ## Claim C4: the value transformer -/

/-- The element of a tile at band, row and column indices, with none
for an out-of-range index at any level. -/
def elemAt {α : Type} (t : List (List (List α))) (b i j : Nat) : Option α :=
  (((t[b]?).bind fun band => band[i]?).bind fun r0 => r0[j]?)

/-- Claim C4: dequantization is element-wise and shape-preserving, the
sentinel value becomes NaN overriding the formula, every other element
follows the documented sign and square formula, the value 127 maps to
the square of 254 over 255 which is within one thousandth of 0.992, and
the requested transform updates the declared pixel type to float32. -/
theorem dequantize_elementwise_spec (data : TileData) (profile : Profile) :
    ((_dequantize data).length = data.length) ∧
    (∀ b i j, elemAt (_dequantize data) b i j =
      (elemAt data b i j).map deqElem) ∧
    (∀ v : ℤ, deqElem v = if v = -128 then .nan
      else .val (qsign (v : ℚ) * ((v : ℚ) / 127.5) ^ 2)) ∧
    (deqElem 127 = .val ((254 / 255 : ℚ) ^ 2)) ∧
    (|((254 / 255 : ℚ) ^ 2) - 0.992| < 1 / 1000) ∧
    (deqElem (-128) = .nan) ∧
    ((maybeDequantize true data profile).2.dtype = "float32" ∧
     (maybeDequantize true data profile).1 = .phys (_dequantize data)) := by
  refine ⟨List.length_map data _, ?_, ?_, ?_,
    by rw [abs_sub_lt_iff]; constructor <;> norm_num, ?_, ?_, ?_⟩
  · intro b i j
    unfold elemAt _dequantize
    rw [List.getElem?_map]
    cases data[b]? with
    | none => simp
    | some band =>
      simp only [Option.map_some', Option.some_bind, List.getElem?_map]
      cases band[i]? with
      | none => simp
      | some r0 =>
        simp only [Option.map_some', Option.some_bind, List.getElem?_map]
  · intro v
    unfold deqElem
    split_ifs with h
    · rfl
    · rw [mul_comm]
  · unfold deqElem qsign
    rw [if_neg (by decide)]
    norm_num
  · unfold deqElem
    rw [if_pos rfl]
  · unfold maybeDequantize
    rw [if_pos rfl]
  · unfold maybeDequantize
    rw [if_pos rfl]

/-! ## Claim C10: odd symmetry of the dequantization -/

/-- Claim C10: on non-sentinel inputs the dequantization is odd and
sign-preserving, and maps zero to zero. -/
theorem dequantize_odd_sign (v : ℤ) (h1 : -128 < v) (h2 : v ≤ 127) :
    ∃ q : ℚ, deqElem v = .val q ∧ deqElem (-v) = .val (-q) ∧
      (0 < v → 0 < q) ∧ (v < 0 → q < 0) ∧ (v = 0 → q = 0) ∧
      deqElem 0 = .val 0 := by
  have hv : v ≠ -128 := by omega
  have hv2 : -v ≠ -128 := by omega
  have hsq : ∀ x : ℚ, ((-x) / 127.5) ^ 2 = (x / 127.5) ^ 2 := by
    intro x
    rw [neg_div, neg_sq]
  have hqs : ∀ x : ℚ, qsign (-x) = -qsign x := by
    intro x
    unfold qsign
    rcases lt_trichotomy x 0 with h | h | h
    · rw [if_pos (by linarith), if_neg (by linarith), if_pos h]
      norm_num
    · subst h
      norm_num
    · rw [if_neg (by linarith), if_pos (by linarith), if_pos h]
  refine ⟨((v : ℚ) / 127.5) ^ 2 * qsign (v : ℚ), ?_, ?_, ?_, ?_, ?_, ?_⟩
  · unfold deqElem
    rw [if_neg hv]
  · unfold deqElem
    rw [if_neg hv2]
    push_cast
    rw [hsq, hqs, mul_neg]
  · intro hpos
    have hx : ((v : ℚ) / 127.5) ≠ 0 :=
      div_ne_zero (Int.cast_ne_zero.mpr (by omega)) (by norm_num)
    have hsqpos : 0 < ((v : ℚ) / 127.5) ^ 2 :=
      lt_of_le_of_ne (sq_nonneg _) (Ne.symm (pow_ne_zero 2 hx))
    have hq1 : qsign (v : ℚ) = 1 := by
      unfold qsign
      rw [if_pos (by exact_mod_cast hpos)]
    rw [hq1, mul_one]
    exact hsqpos
  · intro hneg
    have hx : ((v : ℚ) / 127.5) ≠ 0 :=
      div_ne_zero (Int.cast_ne_zero.mpr (by omega)) (by norm_num)
    have hsqpos : 0 < ((v : ℚ) / 127.5) ^ 2 :=
      lt_of_le_of_ne (sq_nonneg _) (Ne.symm (pow_ne_zero 2 hx))
    have hq1 : qsign (v : ℚ) = -1 := by
      unfold qsign
      rw [if_neg (by linarith [show (v : ℚ) < 0 by exact_mod_cast hneg]),
        if_pos (by exact_mod_cast hneg)]
    rw [hq1]
    nlinarith
  · intro h0
    subst h0
    unfold qsign
    norm_num
  · unfold deqElem qsign
    norm_num

/-- Witness for claim C10 at the concrete non-sentinel value five. -/
theorem dequantize_odd_sign_witness :
    ∃ q : ℚ, deqElem 5 = .val q ∧ deqElem (-5) = .val (-q) ∧ 0 < q := by
  obtain ⟨q, ha, hb, hc, _, _, _⟩ := dequantize_odd_sign 5 (by decide) (by decide)
  exact ⟨q, ha, hb, hc (by decide)⟩

/-! ## Claim C7: the candidate file builder -/

/-- A well-formed path component: non-empty and neither starting nor
ending with a slash. -/
def validComp (s : String) : Prop :=
  s.data ≠ [] ∧ pyStartsSlash s = false ∧ pyEndsSlash s = false

instance (s : String) : Decidable (validComp s) := by
  unfold validComp
  infer_instance

theorem pyStartsSlash_append {a b : String} (ha : a.data ≠ []) :
    pyStartsSlash (a ++ b) = pyStartsSlash a := by
  unfold pyStartsSlash
  rw [String.data_append, List.head?_append_of_ne_nil _ ha]

theorem pyEndsSlash_append {a b : String} (hb : b.data ≠ []) :
    pyEndsSlash (a ++ b) = pyEndsSlash b := by
  unfold pyEndsSlash
  rw [String.data_append, List.getLast?_append_of_ne_nil _ hb]

theorem data_append_ne_nil {a : String} (b : String) (ha : a.data ≠ []) :
    (a ++ b).data ≠ [] := by
  rw [String.data_append]
  intro hcon
  exact ha (List.append_eq_nil.mp hcon).1

theorem pyJoin_of_ends_slash {a b : String} (ha : pyEndsSlash a = true)
    (hb : pyStartsSlash b = false) : pyJoin a b = a ++ b := by
  unfold pyJoin
  rw [if_neg (by simp [hb]), if_pos (Or.inr ha)]

theorem pyJoin_of_no_slash {a b : String} (ha : a.data ≠ [])
    (ha2 : pyEndsSlash a = false) (hb : pyStartsSlash b = false) :
    pyJoin a b = a ++ "/" ++ b := by
  unfold pyJoin
  rw [if_neg (by simp [hb]), if_neg (by simp [ha, ha2])]

/-- The shape of one candidate path produced by the builder, for
well-formed components. -/
theorem candidate_path_eq (year zone fid : String) (hy : validComp year)
    (hz : validComp zone) (hf : fid.data ≠ [])
    (hf2 : pyStartsSlash fid = false) (suffix : String) :
    pyJoinList bucket [year, zone, fid ++ suffix] =
      bucket ++ year ++ "/" ++ zone ++ "/" ++ (fid ++ suffix) := by
  obtain ⟨hy1, hy2, hy3⟩ := hy
  obtain ⟨hz1, hz2, hz3⟩ := hz
  have hbucket : bucket.data ≠ [] := by decide
  have hbslash : pyEndsSlash bucket = true := by decide
  show pyJoin (pyJoin (pyJoin bucket year) zone) (fid ++ suffix) = _
  rw [pyJoin_of_ends_slash hbslash hy2]
  rw [pyJoin_of_no_slash (data_append_ne_nil year hbucket)
    (by rw [pyEndsSlash_append hy1]; exact hy3) hz2]
  rw [pyJoin_of_no_slash
    (data_append_ne_nil zone (data_append_ne_nil "/" (data_append_ne_nil year hbucket)))
    (by rw [pyEndsSlash_append hz1]; exact hz3)
    (by rw [pyStartsSlash_append hf]; exact hf2)]

/-- Claim C7: for every valid component triple the builder returns
exactly four paths, in the fixed order of the suffix list, each the
concatenation of the base location, the year, the zone tag, the asset
id and one quadrant suffix. -/
theorem candidate_builder_spec (year zone fid : String) (hy : validComp year)
    (hz : validComp zone) (hf : fid.data ≠ [])
    (hf2 : pyStartsSlash fid = false) :
    _construct_candidate_file_names year zone (some fid) =
      .ok [bucket ++ year ++ "/" ++ zone ++ "/" ++
             (fid ++ "-0000000000-0000000000.tiff"),
           bucket ++ year ++ "/" ++ zone ++ "/" ++
             (fid ++ "-0000000000-0000008192.tiff"),
           bucket ++ year ++ "/" ++ zone ++ "/" ++
             (fid ++ "-0000008192-0000000000.tiff"),
           bucket ++ year ++ "/" ++ zone ++ "/" ++
             (fid ++ "-0000008192-0000008192.tiff")] ∧
    (∀ l, _construct_candidate_file_names year zone (some fid) = .ok l →
      l.length = 4) := by
  constructor
  · unfold _construct_candidate_file_names tge_labs_aef_file_endings
    simp only [List.map]
    rw [candidate_path_eq year zone fid hy hz hf hf2,
      candidate_path_eq year zone fid hy hz hf hf2,
      candidate_path_eq year zone fid hy hz hf hf2,
      candidate_path_eq year zone fid hy hz hf hf2]
  · intro l hl
    unfold _construct_candidate_file_names at hl
    cases hl
    rfl

/-- Witness for claim C7 at the concrete triple from the source
docstring example. -/
theorem candidate_builder_spec_witness :
    _construct_candidate_file_names "2018" "10N" (some "x02qcrn30k70b9ql6") =
      .ok [bucket ++ "2018" ++ "/" ++ "10N" ++ "/" ++
             ("x02qcrn30k70b9ql6" ++ "-0000000000-0000000000.tiff"),
           bucket ++ "2018" ++ "/" ++ "10N" ++ "/" ++
             ("x02qcrn30k70b9ql6" ++ "-0000000000-0000008192.tiff"),
           bucket ++ "2018" ++ "/" ++ "10N" ++ "/" ++
             ("x02qcrn30k70b9ql6" ++ "-0000008192-0000000000.tiff"),
           bucket ++ "2018" ++ "/" ++ "10N" ++ "/" ++
             ("x02qcrn30k70b9ql6" ++ "-0000008192-0000008192.tiff")] :=
  (candidate_builder_spec "2018" "10N" "x02qcrn30k70b9ql6"
    (by decide) (by decide) (by decide) (by decide)).1

/-! ## Claim C9: side-file path substitution -/

theorem replSkip_skip (pat rep : List Char) :
    ∀ (k : Nat) (l : List Char),
      replSkip pat rep k l = replSkip pat rep 0 (l.drop k) := by
  intro k
  induction k with
  | zero =>
    intro l
    rw [List.drop_zero]
  | succ n ih =>
    intro l
    cases l with
    | nil => rfl
    | cons c rest =>
      show replSkip pat rep n rest = _
      rw [ih rest]
      rfl

theorem probe_suffix_aux : ∀ (n : Nat) (s : List Char), s.length ≤ n →
    ['.','v','r','t'] <:+
      replSkip ['.','t','i','f','f'] ['.','v','r','t'] 0
        (s ++ ['.','t','i','f','f']) := by
  intro n
  induction n with
  | zero =>
    intro s hs
    have h0 : s = [] := List.length_eq_zero.mp (Nat.le_zero.mp hs)
    subst h0
    decide
  | succ n ih =>
    intro s hs
    cases s with
    | nil => decide
    | cons c s1 =>
      have hstep : replSkip ['.','t','i','f','f'] ['.','v','r','t'] 0
          ((c :: s1) ++ ['.','t','i','f','f']) =
          if (['.','t','i','f','f'] : List Char).isPrefixOf
              (c :: (s1 ++ ['.','t','i','f','f'])) then
            ['.','v','r','t'] ++ replSkip ['.','t','i','f','f'] ['.','v','r','t'] 4
              (s1 ++ ['.','t','i','f','f'])
          else c :: replSkip ['.','t','i','f','f'] ['.','v','r','t'] 0
            (s1 ++ ['.','t','i','f','f']) := rfl
      rw [hstep]
      by_cases hpre : (['.','t','i','f','f'] : List Char).isPrefixOf
          (c :: (s1 ++ ['.','t','i','f','f'])) = true
      · rw [if_pos hpre]
        rw [ List.isPrefixOf_iff_prefix] at hpre
        match s1 with
        | [] =>
          obtain ⟨t, ht⟩ := hpre
          simp at ht
        | [a] =>
          obtain ⟨t, ht⟩ := hpre
          simp at ht
        | [a, b] =>
          obtain ⟨t, ht⟩ := hpre
          simp at ht
        | [a, b, c2] =>
          obtain ⟨t, ht⟩ := hpre
          simp at ht
        | a :: b :: c2 :: d :: rest =>
          rw [replSkip_skip]
          have hdrop : ((a :: b :: c2 :: d :: rest) ++
              ['.','t','i','f','f']).drop 4 = rest ++ ['.','t','i','f','f'] := rfl
          rw [hdrop]
          obtain ⟨w, hw⟩ := ih rest (by simp at hs; omega)
          exact ⟨['.','v','r','t'] ++ w, by rw [List.append_assoc, hw]⟩
      · rw [if_neg hpre]
        obtain ⟨w, hw⟩ := ih s1 (by simp at hs; omega)
        exact ⟨c :: w, by rw [List.cons_append, hw]⟩

theorem read_suffix_aux : ∀ (n : Nat) (s : List Char), s.length ≤ n →
    ['.','v','r','t'] <:+
      replSkip ['t','i','f','f'] ['v','r','t'] 0
        (s ++ ['.','t','i','f','f']) := by
  intro n
  induction n with
  | zero =>
    intro s hs
    have h0 : s = [] := List.length_eq_zero.mp (Nat.le_zero.mp hs)
    subst h0
    decide
  | succ n ih =>
    intro s hs
    cases s with
    | nil => decide
    | cons c s1 =>
      have hstep : replSkip ['t','i','f','f'] ['v','r','t'] 0
          ((c :: s1) ++ ['.','t','i','f','f']) =
          if (['t','i','f','f'] : List Char).isPrefixOf
              (c :: (s1 ++ ['.','t','i','f','f'])) then
            ['v','r','t'] ++ replSkip ['t','i','f','f'] ['v','r','t'] 3
              (s1 ++ ['.','t','i','f','f'])
          else c :: replSkip ['t','i','f','f'] ['v','r','t'] 0
            (s1 ++ ['.','t','i','f','f']) := rfl
      rw [hstep]
      by_cases hpre : (['t','i','f','f'] : List Char).isPrefixOf
          (c :: (s1 ++ ['.','t','i','f','f'])) = true
      · rw [if_pos hpre]
        rw [ List.isPrefixOf_iff_prefix] at hpre
        match s1 with
        | [] =>
          obtain ⟨t, ht⟩ := hpre
          simp at ht
        | [a] =>
          obtain ⟨t, ht⟩ := hpre
          simp at ht
        | [a, b] =>
          obtain ⟨t, ht⟩ := hpre
          simp at ht
        | a :: b :: c2 :: rest =>
          rw [replSkip_skip]
          have hdrop : ((a :: b :: c2 :: rest) ++
              ['.','t','i','f','f']).drop 3 = rest ++ ['.','t','i','f','f'] := rfl
          rw [hdrop]
          obtain ⟨w, hw⟩ := ih rest (by simp at hs; omega)
          exact ⟨['v','r','t'] ++ w, by rw [List.append_assoc, hw]⟩
      · rw [if_neg hpre]
        obtain ⟨w, hw⟩ := ih s1 (by simp at hs; omega)
        exact ⟨c :: w, by rw [List.cons_append, hw]⟩

theorem getLast?_of_suffix {l t : List Char} (h : l <:+ t) (hl : l ≠ []) :
    t.getLast? = l.getLast? := by
  obtain ⟨w, rfl⟩ := h
  exact List.getLast?_append_of_ne_nil w hl

/-- Claim C9: both the bounds probe and the windowed read consult the
store only at the substituted side-file path and never at the original
tiff path; for every path ending in the dotted tiff extension both
derived paths end in the vrt extension and differ from the original;
the read substitution rewrites every undotted occurrence of the tiff
substring while the probe substitution rewrites only dotted
occurrences, as the concrete example separates. -/
theorem vrt_sidefile_substitution :
    (∀ store x y fp, _check_file_for_point store x y fp =
      _check_file_for_point
        (fun q => if q = vrtPathProbe fp then store q else none) x y fp) ∧
    (∀ d store x y fn, _read_file d store x y (some fn) =
      _read_file d
        (fun q => if q = vrtPathRead fn then store q else none) x y (some fn)) ∧
    (∀ s : String,
      ['.','v','r','t'] <:+ (vrtPathProbe (s ++ ".tiff")).data ∧
      vrtPathProbe (s ++ ".tiff") ≠ s ++ ".tiff") ∧
    (∀ s : String,
      ['.','v','r','t'] <:+ (vrtPathRead (s ++ ".tiff")).data ∧
      vrtPathRead (s ++ ".tiff") ≠ s ++ ".tiff") ∧
    (vrtPathProbe "s3://b/xtiffy.tiff" = "s3://b/xtiffy.vrt" ∧
     vrtPathRead "s3://b/xtiffy.tiff" = "s3://b/xvrty.vrt") := by
  have hprobeData : ∀ s : String, (vrtPathProbe (s ++ ".tiff")).data =
      replSkip ['.','t','i','f','f'] ['.','v','r','t'] 0
        (s.data ++ ['.','t','i','f','f']) := by
    intro s
    show (pyReplace (s ++ ".tiff") ".tiff" ".vrt").data = _
    unfold pyReplace
    rw [if_neg (by decide)]
    show (String.mk _).data = _
    rw [String.data_append]
  have hreadData : ∀ s : String, (vrtPathRead (s ++ ".tiff")).data =
      replSkip ['t','i','f','f'] ['v','r','t'] 0
        (s.data ++ ['.','t','i','f','f']) := by
    intro s
    show (pyReplace (s ++ ".tiff") "tiff" "vrt").data = _
    unfold pyReplace
    rw [if_neg (by decide)]
    show (String.mk _).data = _
    rw [String.data_append]
  have horig : ∀ s : String, (s ++ ".tiff").data.getLast? = some 'f' := by
    intro s
    rw [String.data_append]
    rw [List.getLast?_append_of_ne_nil _ (by decide)]
    rfl
  refine ⟨?_, ?_, ?_, ?_, by constructor <;> rfl⟩
  · intro store x y fp
    unfold _check_file_for_point
    dsimp only
    rw [if_pos rfl]
  · intro d store x y fn
    unfold _read_file
    dsimp only
    rw [if_pos rfl]
  · intro s
    have hsuf : ['.','v','r','t'] <:+ (vrtPathProbe (s ++ ".tiff")).data := by
      rw [hprobeData s]
      exact probe_suffix_aux s.data.length s.data le_rfl
    refine ⟨hsuf, ?_⟩
    intro hcon
    have h1 : (vrtPathProbe (s ++ ".tiff")).data.getLast? = some 't' := by
      rw [getLast?_of_suffix hsuf (by decide)]
      rfl
    rw [hcon, horig s] at h1
    exact absurd h1 (by decide)
  · intro s
    have hsuf : ['.','v','r','t'] <:+ (vrtPathRead (s ++ ".tiff")).data := by
      rw [hreadData s]
      exact read_suffix_aux s.data.length s.data le_rfl
    refine ⟨hsuf, ?_⟩
    intro hcon
    have h1 : (vrtPathRead (s ++ ".tiff")).data.getLast? = some 't' := by
      rw [getLast?_of_suffix hsuf (by decide)]
      rfl
    rw [hcon, horig s] at h1
    exact absurd h1 (by decide)

/-! ## Claim C6: the asset locator -/

/-- Claim C6: the locator keeps exactly the catalog images of the
requested calendar year that cover the point, with the two endpoint
dates January first and December thirty-first both included; it selects
the single first image of the catalog ordering with no further
tie-break; and an empty result yields an absent value rather than an
error. -/
theorem asset_locator_spec (env : Env) (lat lon : ℚ) (year : Nat)
    (images : List GeeImage) (hc : env.catalogImages = .ok images) :
    (∀ img ∈ yearCandidates images year,
      img.year = year ∧ img.coversPoint = true) ∧
    (∀ img ∈ images, img.coversPoint = true → img.year = year →
      ((img.month, img.day) = (1, 1) ∨ (img.month, img.day) = (12, 31)) →
      img ∈ yearCandidates images year) ∧
    (_get_asset_id env lat lon year =
      .ok ((yearCandidates images year).head?.map
        (fun img => lastSlashComponent img.id))) ∧
    (yearCandidates images year = [] →
      _get_asset_id env lat lon year = .ok none) := by
  have hhead : _get_asset_id env lat lon year =
      .ok ((yearCandidates images year).head?.map
        (fun img => lastSlashComponent img.id)) := by
    unfold _get_asset_id
    rw [hc]
    dsimp only
    cases (yearCandidates images year).head? with
    | none => rfl
    | some img => rfl
  refine ⟨?_, ?_, hhead, ?_⟩
  · intro img hmem
    unfold yearCandidates filterBounds filterDate at hmem
    rw [List.mem_filter] at hmem
    obtain ⟨hmem2, hcov⟩ := hmem
    rw [List.mem_filter] at hmem2
    obtain ⟨_, hdate⟩ := hmem2
    rw [Bool.and_eq_true] at hdate
    obtain ⟨hd1, hd2⟩ := hdate
    unfold dateLE at hd1 hd2
    rw [decide_eq_true_eq] at hd1 hd2
    dsimp only at hd1 hd2
    exact ⟨by omega, hcov⟩
  · intro img hmem hcov hyear hdate
    unfold yearCandidates filterBounds filterDate
    rw [List.mem_filter]
    refine ⟨?_, hcov⟩
    rw [List.mem_filter]
    refine ⟨hmem, ?_⟩
    rw [Bool.and_eq_true]
    unfold dateLE
    rw [decide_eq_true_eq, decide_eq_true_eq]
    dsimp only
    rcases hdate with h | h <;>
      (rw [Prod.mk.injEq] at h; constructor <;> omega)
  · intro hempty
    rw [hhead, hempty]
    rfl

/-- A concrete environment for the asset locator witness: the catalog
holds one image dated on the December endpoint of the year. -/
def envW6 : Env :=
  ⟨fun _ _ _ => .ok (0, 0), .ok [⟨"proj/ASSET1", 2020, 12, 31, true⟩],
    fun _ => none⟩

/-- Witness for claim C6: an image dated December thirty-first of the
requested year is kept (the end date is inclusive) and the locator
returns its id tail. -/
theorem asset_locator_spec_witness :
    (⟨"proj/ASSET1", 2020, 12, 31, true⟩ : GeeImage) ∈
      yearCandidates [⟨"proj/ASSET1", 2020, 12, 31, true⟩] 2020 ∧
    _get_asset_id envW6 0 0 2020 = .ok (some "ASSET1") := by
  have h := asset_locator_spec envW6 0 0 2020
    [⟨"proj/ASSET1", 2020, 12, 31, true⟩] rfl
  refine ⟨h.2.1 ⟨"proj/ASSET1", 2020, 12, 31, true⟩
    (List.mem_singleton.mpr rfl) rfl rfl (Or.inr rfl), ?_⟩
  rw [h.2.2.1]
  rfl

/-! ## Claim C1: the tile finder -/

/-- Claim C1 (amended): the finder probes the candidates in list order,
selects the first candidate whose inclusive bounds contain the point
without the result depending on any later candidate, and returns none
after checking every candidate when none contains the point; the
subsequent read step then fails with the None type error raised on the
absent target, not with a distinct NoMatchingTile error. -/
theorem tileFinder_order_and_failure (store : String → Option RasterFile)
    (x y : ℚ) :
    (∀ pre f post, (∀ g ∈ pre, _check_file_for_point store x y g = .ok false) →
      _check_file_for_point store x y f = .ok true →
      findTargetFile store x y (pre ++ f :: post) = .ok (some f)) ∧
    (∀ files, (∀ g ∈ files, _check_file_for_point store x y g = .ok false) →
      findTargetFile store x y files = .ok none) ∧
    (∀ f src, store (vrtPathProbe f) = some src →
      (_check_file_for_point store x y f = .ok true ↔
        (src.bounds.left ≤ x ∧ x ≤ src.bounds.right ∧
         src.bounds.bottom ≤ y ∧ y ≤ src.bounds.top))) ∧
    (∀ d, _read_file d store x y none = .error .noneTypeError) := by
  refine ⟨?_, ?_, ?_, fun d => rfl⟩
  · intro pre
    induction pre with
    | nil =>
      intro f post _ hf
      show findTargetFile store x y (f :: post) = .ok (some f)
      unfold findTargetFile
      rw [hf]
    | cons g pre ih =>
      intro f post hall hf
      have hg : _check_file_for_point store x y g = .ok false :=
        hall g (List.mem_cons_self g _)
      show findTargetFile store x y (g :: (pre ++ f :: post)) = _
      unfold findTargetFile
      rw [hg]
      exact ih f post (fun g2 hg2 => hall g2 (List.mem_cons_of_mem g hg2)) hf
  · intro files
    induction files with
    | nil =>
      intro _
      rfl
    | cons g rest ih =>
      intro hall
      have hg := hall g (List.mem_cons_self g _)
      unfold findTargetFile
      rw [hg]
      exact ih (fun g2 hg2 => hall g2 (List.mem_cons_of_mem g hg2))
  · intro f src hsrc
    unfold _check_file_for_point
    rw [hsrc]
    dsimp only
    constructor
    · intro hok
      exact of_decide_eq_true (Except.ok.inj hok)
    · intro hbounds
      rw [decide_eq_true hbounds]

deriving instance DecidableEq for Except

/-- A file whose bounds do not contain the witness point. -/
def fileMissW : RasterFile :=
  ⟨⟨10, 20, 10, 20⟩, 50, 50, fun _ _ => (25, 25), fun _ => [[[1]]],
    fun _ => default, default⟩

/-- A file whose bounds contain the witness point. -/
def fileHitW : RasterFile :=
  ⟨⟨0, 100, 0, 100⟩, 50, 50, fun _ _ => (25, 25), fun _ => [[[1]]],
    fun _ => default, default⟩

/-- A store serving side-files only for the first two candidates, so a
probe of any later candidate would fail. -/
def storeW1 : String → Option RasterFile := fun p =>
  if p = "a.vrt" then some fileMissW
  else if p = "b.vrt" then some fileHitW
  else none

/-- Witness for claim C1: with the first candidate missing the point,
the second containing it, and the store undefined on the remaining two
candidates, the finder returns the second candidate, which also shows
that the later candidates are never probed. -/
theorem tileFinder_order_witness :
    findTargetFile storeW1 5 5 ["a.tiff", "b.tiff", "c.tiff", "d.tiff"] =
      .ok (some "b.tiff") :=
  (tileFinder_order_and_failure storeW1 5 5).1 ["a.tiff"] "b.tiff"
    ["c.tiff", "d.tiff"] (by decide) (by decide)

/-- The downloader configuration of the no-match counterexample. -/
def dCX : Downloader := ⟨"out", 2, false⟩

/-- A file served for every path, whose bounds never contain the
projected counterexample point. -/
def fileCX : RasterFile :=
  ⟨⟨100, 200, 100, 200⟩, 50, 50, fun _ _ => (25, 25), fun _ => [[[1]]],
    fun _ => default, default⟩

/-- The counterexample environment: projection and catalog succeed, the
store opens every side-file, and no candidate contains the point. -/
def envCX : Env :=
  ⟨fun _ _ _ => .ok (50, 50), .ok [⟨"proj/ASSET1", 2020, 6, 1, true⟩],
    fun _ => some fileCX⟩

/-- The four candidate paths of the counterexample request. -/
def candsCX : List String :=
  tge_labs_aef_file_endings.map fun suffix =>
    pyJoinList bucket ["2020", "1N", "ASSET1" ++ suffix]

/-- Counterexample to claim C1 as stated: all four candidates are
checked and none contains the point, yet the request does not fail with
the NoMatchingTile error kind; it fails with the None type error raised
inside the reader. -/
theorem tileFinder_noMatchingTile_refuted :
    (download dCX envCX ⟨[]⟩ 1 (-180) 2020 "loc").2 = .error .noneTypeError ∧
    (download dCX envCX ⟨[]⟩ 1 (-180) 2020 "loc").2 ≠
      .error .noMatchingTile ∧
    _construct_candidate_file_names "2020" "1N" (some "ASSET1") =
      .ok candsCX ∧
    candsCX.length = 4 ∧
    (∀ g ∈ candsCX, _check_file_for_point envCX.store 50 50 g = .ok false) ∧
    findTargetFile envCX.store 50 50 candsCX = .ok none := by
  have hz : zoneOf (-180) = 1 := by
    unfold zoneOf
    norm_num
  have hutm : _get_utm_zone envCX 1 (-180) =
      .ok ⟨1, "N", "EPSG:" ++ toString (epsgOf 1 (-180)), 50, 50⟩ := by
    unfold _get_utm_zone envCX
    dsimp only
    rw [hz]
    rfl
  have hmain : (download dCX envCX ⟨[]⟩ 1 (-180) 2020 "loc").2 =
      .error .noneTypeError := by
    unfold download
    rw [hutm]
    rfl
  refine ⟨hmain, ?_, rfl, rfl, by decide, rfl⟩
  rw [hmain]
  intro hcon
  exact absurd (Except.error.inj hcon) (by decide)

/-! ## Claim C8: request atomicity -/

/-- Claim C8: the download pipeline writes exactly one output file when
every step succeeds, and writes nothing at all when any step fails, the
failure propagating to the caller. -/
theorem download_atomicity (d : Downloader) (env : Env) (w : World)
    (lat lon : ℚ) (year : Nat) (location_id : String) :
    ∃ out : WrittenFile,
      (download d env w lat lon year location_id).1.files =
        (match (download d env w lat lon year location_id).2 with
         | .error _ => w.files
         | .ok _ => w.files ++ [out]) := by
  unfold download
  cases h1 : _get_utm_zone env lat lon with
  | error e => exact ⟨default, rfl⟩
  | ok utm =>
    dsimp only
    cases h2 : _get_asset_id env lat lon year with
    | error e => exact ⟨default, rfl⟩
    | ok aid =>
      dsimp only
      cases h3 : _construct_candidate_file_names (toString year)
          (toString utm.zone ++ utm.hemisphere) aid with
      | error e => exact ⟨default, rfl⟩
      | ok filenames =>
        dsimp only
        cases h4 : findTargetFile env.store utm.easting utm.northing
            filenames with
        | error e => exact ⟨default, rfl⟩
        | ok target =>
          dsimp only
          cases h5 : _read_file d env.store utm.easting utm.northing
              target with
          | error e => exact ⟨default, rfl⟩
          | ok r => exact ⟨_, rfl⟩

end AE
